import Mathlib

/-!
Verification development for the spyder-notebook tab/client lifecycle
(`spyder_notebook/widgets/notebooktabwidget.py` and
`spyder_notebook/widgets/client.py`).

The embedding models the POSIX branch of the code (`os.name != 'nt'`): all
Windows-only separator replacements are identity there.  Environment-dependent
paths (`get_temp_dir()`, the welcome page asset) are modelled by fixed
representative constants; the code only compares them for equality and by the
string method startswith, which the representatives reproduce faithfully
(the welcome asset does not live under the temp directory).
-/

namespace SpyderNB

/-! ## String helpers (Python string and path operations, on `List Char`) -/

/-- Model of Python `s.split('/')` on the character list of a string:
`"a/b"` gives `[a, b]`, a leading separator gives a leading empty segment,
and the empty string gives one empty segment. -/
def splitSeg : List Char → List (List Char)
  | [] => [[]]
  | c :: cs =>
    if c = '/' then [] :: splitSeg cs
    else
      match splitSeg cs with
      | [] => [[c]]
      | s :: rest => (c :: s) :: rest

/-- Model of Python `'/'.join(segs)` on character lists. -/
def joinSegs : List (List Char) → List Char
  | [] => []
  | [s] => s
  | s :: rest => s ++ '/' :: joinSegs rest

/-- `'/'.join` on strings. -/
def joinSlash (l : List String) : String :=
  ⟨joinSegs (l.map String.data)⟩

/-- `s.split('/')` on strings. -/
def pySplitSlash (s : String) : List String :=
  (splitSeg s.data).map String.mk

/-- Model of Python `l.strip(ch)` on a character list: drop the given
character from both ends. -/
def stripChar (ch : Char) (l : List Char) : List Char :=
  (((l.dropWhile (· = ch)).reverse.dropWhile (· = ch))).reverse

/-- Python `s.strip('/')`. -/
def stripSlashes (s : String) : String :=
  ⟨stripChar '/' s.data⟩

/-- Python `s.startswith(pre)`. -/
def pyStartsWith (s pre : String) : Bool :=
  pre.data.isPrefixOf s.data

/-- Python `s.endswith(suf)`, as a prefix test on the reversed characters. -/
def pyEndsWith (s suf : String) : Bool :=
  suf.data.reverse.isPrefixOf s.data.reverse

/-- Length of the longest common prefix of two segment lists; models
`genericpath.commonprefix` as used by `posixpath.relpath`. -/
def commonPrefixLen : List String → List String → Nat
  | a :: as, b :: bs => if a = b then commonPrefixLen as bs + 1 else 0
  | _, _ => 0

/-- Model of `os.path.relpath(path, start)` (POSIX) for absolute, already
normalized arguments, for which `abspath` is the identity: split both paths
on the separator dropping empty segments, strip the common prefix, and
prepend one `..` per remaining segment of `start`. -/
def relpath (path start : String) : String :=
  let path_list := (pySplitSlash path).filter (fun x => x ≠ "")
  let start_list := (pySplitSlash start).filter (fun x => x ≠ "")
  let i := commonPrefixLen start_list path_list
  let rel_list := List.replicate (start_list.length - i) ".." ++ path_list.drop i
  if rel_list = [] then "." else joinSlash rel_list

/-- Model of `os.path.split` (POSIX): split off the part after the last
separator; the head keeps no trailing separators unless it is all
separators. -/
def osp_split (p : String) : String × String :=
  let d := p.data
  let tail := (d.reverse.takeWhile (· ≠ '/')).reverse
  let head := d.take (d.length - tail.length)
  let head := if head ≠ [] ∧ ¬ head.all (· = '/') then
    (head.reverse.dropWhile (· = '/')).reverse else head
  (⟨head⟩, ⟨tail⟩)

/-- Characters that `urllib.parse.quote` leaves unescaped with the default
`safe='/'`: ASCII letters and digits, `_.-~`, and the separator. -/
def isSafeChar (c : Char) : Bool :=
  c.isAlpha || c.isDigit || c = '_' || c = '.' || c = '-' || c = '~' || c = '/'

/-- UTF-8 bytes of a code point, as naturals. -/
def utf8Bytes (n : Nat) : List Nat :=
  if n < 128 then [n]
  else if n < 2048 then [192 + n / 64, 128 + n % 64]
  else if n < 65536 then [224 + n / 4096, 128 + (n / 64) % 64, 128 + n % 64]
  else [240 + n / 262144, 128 + (n / 4096) % 64, 128 + (n / 64) % 64, 128 + n % 64]

/-- Upper-case hexadecimal digit. -/
def hexDigitChar (n : Nat) : Char :=
  if n < 10 then Char.ofNat (48 + n) else Char.ofNat (55 + n)

/-- Percent-encoding of one byte. -/
def percentByte (b : Nat) : List Char :=
  ['%', hexDigitChar (b / 16), hexDigitChar (b % 16)]

/-- `urllib.parse.quote` on a single character. -/
def quoteChar (c : Char) : List Char :=
  if isSafeChar c then [c] else (utf8Bytes c.toNat).flatMap percentByte

/-- Model of `notebook.utils.url_escape`: split the path on the separator
and quote every part. -/
def url_escape (p : String) : String :=
  ⟨joinSegs ((splitSeg p.data).map (fun part => part.flatMap quoteChar))⟩

/-- Model of `notebook.utils.url_path_join`: join the pieces stripped of
surrounding separators, keeping an initial separator of the first piece and
a final separator of the last. -/
def url_path_join (pieces : List String) : String :=
  let initial := pyStartsWith (pieces.headD "") "/"
  let final := pyEndsWith (pieces.getLastD "") "/"
  let stripped := pieces.map stripSlashes
  let joined : String := ⟨joinSegs (((stripped.filter (fun s => s ≠ "")).map String.data))⟩
  let r1 : String := if initial then "/" ++ joined else joined
  let r2 : String := if final then r1 ++ "/" else r1
  if r2 = "//" then "/" else r2

/-! ## Data model: notebook documents and server info -/

/-- `metadata.kernelspec` of a notebook document. -/
structure KernelSpec where
  display_name : String
  name : String
deriving DecidableEq

/-- One notebook cell; only the `source` text is inspected by this code. -/
structure Cell where
  source : String
deriving DecidableEq

/-- A notebook document as far as this code reads or writes it: the cell
list and the kernelspec metadata.  `nbformat.v4.new_notebook` with a
kernelspec produces an empty cell list. -/
structure Notebook where
  cells : List Cell
  kernelspec : Option KernelSpec
deriving DecidableEq

/-- Connection info returned by the server launcher `nbopen`. -/
structure ServerInfo where
  url : String
  token : String
  notebook_dir : String
deriving DecidableEq

/-! ## NotebookClient (`spyder_notebook/widgets/client.py`) -/

/-- State of one `NotebookClient`.  `cid` models Python object identity
(the widget); `view` is the URL currently loaded in the embedded browser
view, if any.  `file_url`, `server_url`, `token` and `path` are `None`
until `register` is called, as in the constructor. -/
structure Client where
  cid : Nat
  filename : String
  file_url : Option String
  server_url : Option String
  token : Option String
  path : Option String
  view : Option String
deriving DecidableEq

/-- The `NotebookClient` constructor (POSIX branch: the separator
replacement is the identity).  The embedded view shows a blank page or the
initial message, which is not a navigation, so `view` starts empty. -/
def newClient (cid : Nat) (filename : String) : Client :=
  ⟨cid, filename, none, none, none, none, none⟩

/-- `NotebookClient.add_token`: append the token as a query parameter. -/
def add_token (url : String) (tok : String) : String :=
  url ++ "?token=" ++ tok

/-- `NotebookClient.register`: compute the path relative to the notebook
directory of the server, store the server url and token, and build the
tokenized file url. -/
def register (c : Client) (si : ServerInfo) : Client :=
  let p := relpath c.filename si.notebook_dir
  let url := url_path_join [si.url, "notebook", url_escape p]
  { c with path := some p, server_url := some si.url, token := some si.token,
           file_url := some (add_token url si.token) }

/-- Modelled from the spec: the widget class `DOMWidget`
(`spyder_notebook/widgets/dom.py`) is not under `src/`, so the behaviour of
its `load` method on an absent URL is taken from the spec, which states
that `loadNotebook()` "Fails silently (no-op) if never registered". -/
def widgetLoad (view : Option String) (url : Option String) : Option String :=
  match url with
  | none => view
  | some u => some u

/-- `NotebookClient.go_to`: ask the embedded view to load the URL. -/
def go_to (c : Client) (url : Option String) : Client :=
  { c with view := widgetLoad c.view url }

/-- `NotebookClient.load_notebook`: navigate to the registered file URL. -/
def load_notebook (c : Client) : Client :=
  go_to c c.file_url

/-! ## `NotebookClient.get_kernel_id` -/

/-- One entry of the session list as read by `get_kernel_id`:
`notebook_path` models `session.get('notebook', \x7b\x7d).get('path')` (absent
keys give `none`); `kernel_id` models `session['kernel']['id']`, which the
code only reads on a path match and which a real server always supplies. -/
structure Session where
  notebook_path : Option String
  kernel_id : String
deriving DecidableEq

/-- The JSON body of the session response, after `json.loads`: either a
JSON array of sessions, or a JSON object (its key list and the value of its
`message` key). -/
inductive JBody
  | jlist (sessions : List Session)
  | jdict (keys : List String) (message : Option String)
deriving DecidableEq

/-- An HTTP response: status code, and the parse of the decoded body
(`none` when the body is not valid JSON, in which case `json.loads`
raises). -/
structure HttpResponse where
  status_code : Nat
  parsed : Option JBody
deriving DecidableEq

/-- Outcome of `get_kernel_id`: a normal return carrying the value and
whether a warning dialog was shown, or an uncaught Python exception. -/
inductive GKOutcome
  | ret (kernel_id : Option String) (reported : Bool)
  | raised (msg : String)
deriving DecidableEq

/-- The session loop of `get_kernel_id`: the first session whose notebook
path is present and equals the path of the client gives its kernel id. -/
def findSessionKernel (path : String) : List Session → Option String
  | [] => none
  | s :: rest =>
    match s.notebook_path with
    | some p => if p = path then some s.kernel_id else findSessionKernel path rest
    | none => findSessionKernel path rest

/-- `NotebookClient.get_kernel_id` as a function of the relative path of the
client and the result of `requests.get` (`Except.error` models a
`RequestException`).  Faithful to the source order: the body is decoded and
JSON-parsed before the status code is checked; in the non-ok branch
`sessions.get('message')` needs a dict (a list raises `AttributeError`), and
in the ok branch iterating a dict yields its keys, which are strings without
a `get` method (an empty dict just skips the loop and returns `None`). -/
def get_kernel_id (path : String) (resp : Except String HttpResponse) : GKOutcome :=
  match resp with
  | .error _ => .ret none true
  | .ok r =>
    match r.parsed with
    | none => .raised "JSONDecodeError"
    | some body =>
      if r.status_code ≠ 200 then
        match body with
        | .jdict _ _ => .ret none true
        | .jlist _ => .raised "AttributeError"
      else
        match body with
        | .jlist sessions => .ret (findSessionKernel path sessions) false
        | .jdict keys _ => if keys = [] then .ret none false else .raised "AttributeError"

/-! ## NotebookTabWidget (`spyder_notebook/widgets/notebooktabwidget.py`)

The source keeps the Python list `self.clients` in lockstep with the Qt tab
list: `add_tab` appends the client to both, and `close_client` removes the
same client from both (`removeTab` plus `list.remove`).  The model therefore
keeps one ordered list, `clients`, together with the current Qt tab index.
Filesystem writes and deletions performed by the code are recorded in
`files`; the contents a read returns are supplied by oracles, because the
embedded browser process also writes the notebook files.  Calls of
`client.save()` and `client.shutdown_kernel()` and error dialogs are
recorded as events. -/

/-- Representative of `spyder.utils.programs.get_temp_dir()`. -/
def get_temp_dir : String := "/tmp/spyder"

/-- `NOTEBOOK_TMPDIR = osp.join(get_temp_dir(), 'notebooks')`. -/
def NOTEBOOK_TMPDIR : String := get_temp_dir ++ "/notebooks"

/-- Representative of the `WELCOME` asset path, which lives in the package
directory, not under the temp directory. -/
def WELCOME : String := "/pkg/spyder_notebook/utils/templates/welcome.html"

/-- The default kernelspec written into new notebooks. -/
def defaultKernelspec : KernelSpec := ⟨"Python 3 (Spyder)", "python3"⟩

/-- Observable calls made on clients, and error dialogs. -/
inductive Event
  | evSave (cid : Nat)
  | evShutdown (cid : Nat)
  | evReport (tag : String)
deriving DecidableEq

/-- State of the `NotebookTabWidget`, plus the recorded filesystem writes
and the event trace. -/
structure TabState where
  clients : List Client
  currentIndex : Int
  untitled_num : Int
  nextId : Nat
  files : List (String × Notebook)
  events : List Event
deriving DecidableEq

/-- The widget state after the constructor: no clients, no current tab
(Qt reports index -1), `untitled_num = 0`. -/
def initState : TabState :=
  ⟨[], -1, 0, 0, [], []⟩

/-- Append an event to the trace. -/
def addEvent (s : TabState) (e : Event) : TabState :=
  { s with events := s.events ++ [e] }

/-- `nbformat.write`: record the document at the path, overwriting. -/
def fsWrite (files : List (String × Notebook)) (name : String) (nb : Notebook) :
    List (String × Notebook) :=
  (name, nb) :: files.filter (fun p => p.1 ≠ name)

/-- Look up a recorded file. -/
def fsLookup (files : List (String × Notebook)) (name : String) : Option Notebook :=
  (files.find? (fun p => p.1 = name)).map (fun p => p.2)

/-- Qt `widget(index)`: the tab widget at the index, `None` when the index
is out of range (in particular for the -1 that `indexOf` returns on a
missing widget). -/
def widget (s : TabState) (i : Int) : Option Client :=
  if i < 0 then none else s.clients.get? i.toNat

/-- `NotebookTabWidget.add_tab`: append the client, create the tab and
select it (`addTab` returns the index of the new tab). -/
def add_tab (s : TabState) (c : Client) : TabState :=
  { s with clients := s.clients ++ [c], currentIndex := (s.clients.length : Int) }

/-- `NotebookTabWidget.maybe_create_welcome_client`: when there are no
tabs, create a client on the welcome page and add it as a tab, returning
it; otherwise do nothing and return `None`. -/
def maybe_create_welcome_client (s : TabState) : TabState × Option Client :=
  if s.clients.length = 0 then
    let c := newClient s.nextId WELCOME
    (add_tab { s with nextId := s.nextId + 1 } c, some c)
  else (s, none)

/-- `NotebookTabWidget.create_new_client`, as a function of the optional
filename argument (`none` or the empty string are falsy) and of the result
of `nbopen` (`none` models `CalledProcessError` or `NBServerError`).
When no filename is given, a fresh untitled notebook with an empty cell
list and the default kernelspec is written and the untitled counter is
incremented.  On a server failure, an error dialog is shown, the counter is
decremented unconditionally, a welcome tab is ensured and `None` is
returned.  On success, a welcome tab is ensured first (so from an empty
collection the welcome tab is created and kept next to the new client),
the client is added, registered and navigated, and if a welcome tab was
just created the first tab is selected.  The source registers the client
object after inserting it into the list; the model inserts the fully
registered client, which yields the same list contents. -/
def create_new_client (s : TabState) (filename : Option String)
    (nbopenResult : Option ServerInfo) : TabState × Option String :=
  let synthesized := (filename.getD "") = ""
  let fname := if synthesized then
    NOTEBOOK_TMPDIR ++ "/" ++ ("untitled" ++ toString s.untitled_num ++ ".ipynb")
  else filename.getD ""
  let s := if synthesized then
    { s with files := fsWrite s.files fname ⟨[], some defaultKernelspec⟩,
             untitled_num := s.untitled_num + 1 }
  else s
  match nbopenResult with
  | none =>
    let s := addEvent s (.evReport "server_error")
    let s := { s with untitled_num := s.untitled_num - 1 }
    ((maybe_create_welcome_client s).1, none)
  | some si =>
    let mc := maybe_create_welcome_client s
    let c := load_notebook (register (newClient mc.1.nextId fname) si)
    let s2 := add_tab { mc.1 with nextId := mc.1.nextId + 1 } c
    (if mc.2.isSome then { s2 with currentIndex := 0 } else s2, some fname)

/-- Qt `removeTab` at a valid position: the tabs above shift down; when the
current tab is removed, the default `SelectRightTab` behaviour selects the
tab now occupying the same position, or the last one; an empty widget has
current index -1. -/
def removeTabAt (s : TabState) (i : Nat) : TabState :=
  let cls := s.clients.eraseIdx i
  let newCur : Int :=
    if cls.length = 0 then -1
    else if s.currentIndex > (i : Int) then s.currentIndex - 1
    else if s.currentIndex = (i : Int) then min (i : Int) ((cls.length : Int) - 1)
    else s.currentIndex
  { s with clients := cls, currentIndex := newCur }

/-- The tail of `NotebookTabWidget.close_client` after the save step: shut
down the kernel unless the client is the welcome client, close the widget,
delete the backing file when it lies in the temp directory (a missing file
is ignored), remove the tab and the client from the collection
(`list.remove` raises `ValueError` when the client is absent, modelled as
`none`), and finally ensure a welcome tab. -/
def close_rest (s : TabState) (c : Client) : Option TabState :=
  let s := if c.filename = WELCOME then s else addEvent s (.evShutdown c.cid)
  let s := if pyStartsWith c.filename get_temp_dir then
    { s with files := s.files.filter (fun p => p.1 ≠ c.filename) }
  else s
  (s.clients.findIdx? (fun x => x.cid = c.cid)).map
    (fun i => (maybe_create_welcome_client (removeTabAt s i)).1)

instance {ε α : Type} [DecidableEq ε] [DecidableEq α] : DecidableEq (Except ε α) := fun a b =>
  match a, b with
  | .error x, .error y =>
    if h : x = y then .isTrue (by rw [h]) else .isFalse (fun hc => by cases hc; exact h rfl)
  | .ok x, .ok y =>
    if h : x = y then .isTrue (by rw [h]) else .isFalse (fun hc => by cases hc; exact h rfl)
  | .error _, .ok _ => .isFalse (fun hc => by cases hc)
  | .ok _, .error _ => .isFalse (fun hc => by cases hc)

/-- Environment inputs consumed during one `close_client` call when it
descends into `save_notebook` and `save_as`: the notebook contents returned
by the two `nbformat.read` calls (the embedded browser also writes these
files, so the contents are inputs; `Except.error` models an
`EnvironmentError`), the answer to the save-changes question, the filename
from the save dialog (the empty string is the falsy cancel result), whether
`nbformat.write` to that filename raises, and the `nbopen` result for the
`create_new_client` call that reopens the saved file. -/
structure CloseOracle where
  snRead : Except String Notebook
  snAnswer : Bool
  saName : String
  saRead : Except String Notebook
  saWriteErr : Bool
  saServer : Option ServerInfo
deriving DecidableEq

/-- `NotebookTabWidget.close_client(save=True)` on the current tab, as
called from `save_as`: with `save` true the save step is skipped, so this
is the resolution of the current tab followed by `close_rest`. -/
def close_current_skipsave (s : TabState) : Option TabState :=
  if s.clients.length = 0 then some s
  else (widget s s.currentIndex).bind (fun c => close_rest s c)

/-- `NotebookTabWidget.save_as`: save the current client (`None` when the
current index is invalid, in which case the attribute access raises),
ask for a destination (cancel returns), read the notebook from the original
path and rewrite it at the destination (an `EnvironmentError` at either
step shows an error dialog and returns), then close the current tab unless
`close` is set, and open the destination through `create_new_client`.  The
`name` argument of the source only pre-fills the dialog, which has no
state effect, so the model omits it. -/
def save_as_model (s : TabState) (close : Bool) (o : CloseOracle) : Option TabState :=
  (widget s s.currentIndex).bind (fun cc =>
    let s := addEvent s (.evSave cc.cid)
    if o.saName = "" then some s
    else
      match o.saRead with
      | .error _ => some (addEvent s (.evReport "file_error_read"))
      | .ok nb =>
        if o.saWriteErr then some (addEvent s (.evReport "file_error_write"))
        else
          let s := { s with files := fsWrite s.files o.saName nb }
          let step1 : Option TabState :=
            if ¬ close then close_current_skipsave s else some s
          step1.map (fun s1 => (create_new_client s1 (some o.saName) o.saServer).1))

/-- `NotebookTabWidget.save_notebook`: save the client; when its file is an
untitled notebook in the temp directory, wait, re-read it (`nbformat.read`
is not guarded here, so a read error is an uncaught exception), return when
it is empty or its first cell has empty source, and otherwise ask the user
whether to save under a new name, calling `save_as(close=True)` on yes. -/
def save_notebook_model (s : TabState) (c : Client) (o : CloseOracle) : Option TabState :=
  let s := addEvent s (.evSave c.cid)
  let parts := osp_split c.filename
  if ¬ (parts.1 = NOTEBOOK_TMPDIR ∧ pyStartsWith parts.2 "untitled") then some s
  else
    match o.snRead with
    | .error _ => none
    | .ok nb =>
      let emptyish :=
        match nb.cells with
        | [] => true
        | cell :: _ => cell.source = ""
      if emptyish then some s
      else if o.snAnswer then save_as_model s true o else some s

/-- How a `close_client` call designates the tab: the current tab (both
arguments `None`) or an explicit index. -/
inductive CloseTarget
  | current
  | atIndex (i : Int)
deriving DecidableEq

/-- The target resolution of `close_client`: the designated tab widget, or
`None` (out of range index), in which case the call raises. -/
def resolveClose (s : TabState) (t : CloseTarget) : Option Client :=
  match t with
  | .current => widget s s.currentIndex
  | .atIndex i => widget s i

/-- `NotebookTabWidget.close_client`: no-op when there are no tabs; resolve
the target; save the notebook unless `save` is set or the target is the
welcome client; then run the closing tail `close_rest`. -/
def close_client (s : TabState) (t : CloseTarget) (save : Bool) (o : CloseOracle) :
    Option TabState :=
  if s.clients.length = 0 then some s
  else
    (resolveClose s t).bind (fun c =>
      let is_welcome := c.filename = WELCOME
      let step1 : Option TabState :=
        if ¬ save ∧ ¬ is_welcome then save_notebook_model s c o else some s
      step1.bind (fun s1 => close_rest s1 c))

/-- The operations of claim C1: `create_new_client` with or without a
filename, and `close_client`, each packaged with its environment inputs. -/
inductive Op
  | createNew (res : Option ServerInfo)
  | createWith (f : String) (res : Option ServerInfo)
  | closeTab (t : CloseTarget) (save : Bool) (o : CloseOracle)
deriving DecidableEq

/-- One user-level operation; `none` when a Python exception escapes. -/
def stepOp (s : TabState) : Op → Option TabState
  | .createNew res => some (create_new_client s none res).1
  | .createWith f res => some (create_new_client s (some f) res).1
  | .closeTab t save o => close_client s t save o

/-- Run a sequence of operations. -/
def run (s : TabState) : List Op → Option TabState
  | [] => some s
  | op :: rest => (stepOp s op).bind (fun s1 => run s1 rest)

/-- Number of welcome tabs (clients whose filename is the welcome page). -/
def welcomeCount (s : TabState) : Nat :=
  (s.clients.filter (fun c => c.filename = WELCOME)).length

/-- Number of real (non-welcome) clients. -/
def realCount (s : TabState) : Nat :=
  (s.clients.filter (fun c => c.filename ≠ WELCOME)).length

/-- Whether an operation is a `create_new_client` call. -/
def isCreate : Op → Bool
  | .closeTab _ _ _ => false
  | _ => true

/-- Whether a sequence contains a `create_new_client` call. -/
def containsCreate (ops : List Op) : Bool :=
  ops.any isCreate

/-! ## Shared concrete inputs for witnesses and counterexamples -/

/-- A representative successful `nbopen` result. -/
def si0 : ServerInfo := ⟨"http://localhost:8888", "tok", "/tmp/spyder/notebooks"⟩

/-- A `CloseOracle` with inert inputs. -/
def oracle0 : CloseOracle := ⟨.ok ⟨[], none⟩, false, "", .ok ⟨[], none⟩, false, none⟩

/-- The state after one failed `create_new_client()` from the empty widget:
one welcome tab. -/
def stateW : TabState := (run initState [Op.createNew none]).getD initState

/-- The state after one successful `create_new_client()` from the empty
widget. -/
def oneCreateState : TabState := (run initState [Op.createNew (some si0)]).getD initState

/-! ## Claims C7, C5 and C10 (client) -/

/-- Claim C7: calling `load_notebook` on a client on which `register` was
never called (its `file_url` still has the `None` of the constructor) is a
no-op: the client, in particular the embedded view, is unchanged, and no
error value is produced. -/
theorem load_notebook_unregistered_noop (c : Client) (h : c.file_url = none) :
    load_notebook c = c := by
  cases c
  simp only at h
  simp [load_notebook, go_to, widgetLoad, h]

/-- Witness for C7 at a concrete freshly constructed client. -/
theorem load_notebook_unregistered_noop_witness :
    load_notebook (newClient 3 "/home/user/nb.ipynb") = newClient 3 "/home/user/nb.ipynb" :=
  load_notebook_unregistered_noop (newClient 3 "/home/user/nb.ipynb") rfl

/-- The session loop returns `None` when no session path matches. -/
theorem findSessionKernel_eq_none (p : String) (l : List Session)
    (h : ∀ sess ∈ l, sess.notebook_path ≠ some p) :
    findSessionKernel p l = none := by
  induction l with
  | nil => rfl
  | cons s rest ih =>
    have hs := h s (by simp)
    match hq : s.notebook_path with
    | none => simpa [findSessionKernel, hq] using ih (fun x hx => h x (by simp [hx]))
    | some q =>
      rw [hq] at hs
      have : q ≠ p := fun he => hs (by rw [he])
      simpa [findSessionKernel, hq, this] using ih (fun x hx => h x (by simp [hx]))

/-- Claim C5: `get_kernel_id` returns `None` in all three cases — network
exception, non-success HTTP status (with a JSON-object body, which is what
a notebook server sends), and a session list with no matching path — and
the internal report signal (the warning dialog) distinguishes the two
failure cases (`reported = true`) from the plain no-match case
(`reported = false`). -/
theorem get_kernel_id_not_found_cases :
    (∀ (p e : String), get_kernel_id p (.error e) = .ret none true) ∧
    (∀ (p : String) (r : HttpResponse) (keys : List String) (msg : Option String),
      r.parsed = some (.jdict keys msg) → r.status_code ≠ 200 →
      get_kernel_id p (.ok r) = .ret none true) ∧
    (∀ (p : String) (r : HttpResponse) (sessions : List Session),
      r.parsed = some (.jlist sessions) → r.status_code = 200 →
      (∀ sess ∈ sessions, sess.notebook_path ≠ some p) →
      get_kernel_id p (.ok r) = .ret none false) := by
  refine ⟨fun p e => rfl, fun p r keys msg hp hst => ?_, fun p r sessions hp hst hm => ?_⟩
  · simp [get_kernel_id, hp, hst]
  · simp [get_kernel_id, hp, hst, findSessionKernel_eq_none p sessions hm]

/-- Witness for C5: a connection failure, a 500 with a JSON error object,
and a 200 whose only session is another notebook, all return `None`; the
first two report, the third does not. -/
theorem get_kernel_id_not_found_cases_witness :
    get_kernel_id "sub/nb.ipynb" (.error "conn") = .ret none true ∧
    get_kernel_id "sub/nb.ipynb" (.ok ⟨500, some (.jdict ["message"] (some "busy"))⟩) =
      .ret none true ∧
    get_kernel_id "sub/nb.ipynb" (.ok ⟨200, some (.jlist [⟨some "other.ipynb", "k1"⟩])⟩) =
      .ret none false :=
  ⟨get_kernel_id_not_found_cases.1 "sub/nb.ipynb" "conn",
   get_kernel_id_not_found_cases.2.1 "sub/nb.ipynb" ⟨500, some (.jdict ["message"] (some "busy"))⟩
     ["message"] (some "busy") rfl (by decide),
   get_kernel_id_not_found_cases.2.2 "sub/nb.ipynb"
     ⟨200, some (.jlist [⟨some "other.ipynb", "k1"⟩])⟩ [⟨some "other.ipynb", "k1"⟩] rfl rfl
     (by decide)⟩

/-- Claim C10: the body is decoded and JSON-parsed before the status check,
so any response whose body is not valid JSON makes `get_kernel_id` raise an
uncaught exception — whatever the status code — instead of reporting a
server error and returning `None`. -/
theorem get_kernel_id_parse_before_status (p : String) (r : HttpResponse)
    (h : r.parsed = none) :
    get_kernel_id p (.ok r) = .raised "JSONDecodeError" := by
  simp [get_kernel_id, h]

/-- Witness for C10: an HTML error page with status 404 raises. -/
theorem get_kernel_id_parse_before_status_witness :
    get_kernel_id "sub/nb.ipynb" (.ok ⟨404, none⟩) = .raised "JSONDecodeError" :=
  get_kernel_id_parse_before_status "sub/nb.ipynb" ⟨404, none⟩ rfl

/-! ## Claims C2 and C9 (create_new_client) -/

theorem mcwc_untitled_num (s : TabState) :
    (maybe_create_welcome_client s).1.untitled_num = s.untitled_num := by
  rw [maybe_create_welcome_client]
  split <;> rfl

theorem mcwc_files (s : TabState) :
    (maybe_create_welcome_client s).1.files = s.files := by
  rw [maybe_create_welcome_client]
  split <;> rfl

theorem fsLookup_fsWrite (files : List (String × Notebook)) (n : String) (nb : Notebook) :
    fsLookup (fsWrite files n nb) n = some nb := by
  simp [fsLookup, fsWrite, List.find?]

/-- Claim C2: `create_new_client` with no filename and a failing server
launcher: the untitled counter ends where it started, the call returns
`None` ("no file opened"), the file `untitledN.ipynb` was written before
the failure with an empty cell list and the default kernelspec
`name: python3, display_name: Python 3 (Spyder)`, an error was reported,
and when the collection was empty a welcome tab exists afterwards. -/
theorem create_untitled_server_failure (s : TabState) :
    (create_new_client s none none).2 = none ∧
    (create_new_client s none none).1.untitled_num = s.untitled_num ∧
    fsLookup (create_new_client s none none).1.files
        (NOTEBOOK_TMPDIR ++ "/" ++ ("untitled" ++ toString s.untitled_num ++ ".ipynb")) =
      some ⟨[], some defaultKernelspec⟩ ∧
    (s.clients = [] → welcomeCount (create_new_client s none none).1 = 1) := by
  refine ⟨rfl, ?_, ?_, ?_⟩
  · simp [create_new_client, mcwc_untitled_num, addEvent]
  · simp [create_new_client, mcwc_files, addEvent, fsLookup_fsWrite]
  · intro h
    simp [create_new_client, addEvent, welcomeCount, maybe_create_welcome_client, h,
      add_tab, newClient]

/-- Witness for C2, from the empty widget with counter 0. -/
theorem create_untitled_server_failure_witness :
    (create_new_client initState none none).2 = none ∧
    (create_new_client initState none none).1.untitled_num = 0 ∧
    fsLookup (create_new_client initState none none).1.files
        (NOTEBOOK_TMPDIR ++ "/" ++ ("untitled" ++ toString (0 : Int) ++ ".ipynb")) =
      some ⟨[], some defaultKernelspec⟩ ∧
    welcomeCount (create_new_client initState none none).1 = 1 :=
  ⟨(create_untitled_server_failure initState).1,
   (create_untitled_server_failure initState).2.1,
   (create_untitled_server_failure initState).2.2.1,
   (create_untitled_server_failure initState).2.2.2 rfl⟩

/-- Claim C9: when `create_new_client` is called with an explicit filename
and the server launcher fails, `untitled_num` is still decremented (no
untitled file is written, so nothing was synthesized), the counter can
therefore go negative, and a later synthesized filename collides with that
of an already open untitled notebook: after create-success, explicit-name
failure, create-success, the widget holds two distinct clients with the
same `untitled0.ipynb` filename. -/
theorem untitled_counter_decrement_on_failure :
    (∀ (s : TabState) (f : String), f ≠ "" →
      (create_new_client s (some f) none).1.untitled_num = s.untitled_num - 1 ∧
      (create_new_client s (some f) none).1.files = s.files) ∧
    (run initState [Op.createWith "/home/u/a.ipynb" none]).map (fun s => s.untitled_num) =
      some (-1) ∧
    (run initState [Op.createNew (some si0), Op.createWith "/home/u/a.ipynb" none,
        Op.createNew (some si0)]).map
        (fun s => s.clients.map (fun c => (c.cid, c.filename))) =
      some [(0, WELCOME), (1, NOTEBOOK_TMPDIR ++ "/untitled0.ipynb"),
        (2, NOTEBOOK_TMPDIR ++ "/untitled0.ipynb")] := by
  refine ⟨fun s f hf => ⟨?_, ?_⟩, by decide, by decide⟩
  · simp [create_new_client, hf, mcwc_untitled_num, addEvent]
  · simp [create_new_client, hf, mcwc_files, addEvent]

/-- Witness for C9 at a concrete state and filename. -/
theorem untitled_counter_decrement_on_failure_witness :
    (create_new_client initState (some "/home/u/a.ipynb") none).1.untitled_num = 0 - 1 ∧
    (create_new_client initState (some "/home/u/a.ipynb") none).1.files = [] :=
  untitled_counter_decrement_on_failure.1 initState "/home/u/a.ipynb" (by decide)

/-! ## Claim C6 (close_client on the welcome tab) -/

theorem mcwc_events (s : TabState) :
    (maybe_create_welcome_client s).1.events = s.events := by
  rw [maybe_create_welcome_client]
  split <;> rfl

theorem welcome_not_in_tmpdir : pyStartsWith WELCOME get_temp_dir = false := by decide

theorem close_rest_welcome_events (s : TabState) (c : Client) (s' : TabState)
    (hwel : c.filename = WELCOME) (h : close_rest s c = some s') : s'.events = s.events := by
  unfold close_rest at h
  rw [hwel] at h
  simp only [eq_self_iff_true, if_true, welcome_not_in_tmpdir, Bool.false_eq_true,
    if_false] at h
  cases hidx : List.findIdx? (fun x => x.cid = c.cid) s.clients with
  | none => rw [hidx] at h; cases h
  | some i =>
    rw [hidx] at h
    injection h with h
    rw [← h, mcwc_events]
    rfl

/-- Claim C6: whenever the client `close_client` resolves as its target is
the welcome placeholder, the call emits no events at all — in particular it
never calls `save()` (via `save_notebook`) or `shutdown_kernel()` on it. -/
theorem close_client_welcome_no_save_no_shutdown (s : TabState) (t : CloseTarget)
    (save : Bool) (o : CloseOracle) (c : Client) (s' : TabState)
    (hres : resolveClose s t = some c) (hwel : c.filename = WELCOME)
    (hcl : close_client s t save o = some s') : s'.events = s.events := by
  unfold close_client at hcl
  by_cases h0 : s.clients.length = 0
  · rw [if_pos h0] at hcl
    cases hcl
    rfl
  · rw [if_neg h0, hres] at hcl
    simp only [Option.some_bind, hwel, eq_self_iff_true, not_true, and_false,
      if_false] at hcl
    exact close_rest_welcome_events s c s' hwel hcl

/-- Witness for C6: closing the current (welcome) tab of a widget holding
only the welcome tab leaves the event trace unchanged. -/
theorem close_client_welcome_no_save_no_shutdown_witness :
    ((close_client stateW .current false oracle0).getD initState).events = stateW.events :=
  close_client_welcome_no_save_no_shutdown stateW .current false oracle0
    (newClient 0 WELCOME) ((close_client stateW .current false oracle0).getD initState)
    rfl rfl rfl

/-! ## Claim C8 (save_as aborts on I/O errors) -/

/-- Whether the trace contains an error dialog. -/
def hasReport (events : List Event) : Bool :=
  events.any (fun e =>
    match e with
    | .evReport _ => true
    | _ => false)

/-- Claim C8: in `save_as`, when the user chose a destination and either
reading the notebook from the original path or writing it to the
destination raises an `EnvironmentError`, the error is reported and the
operation aborts with no further side effects: the tab collection, the
selected tab and the recorded files are unchanged (the current tab is not
closed and no tab is opened for the destination). -/
theorem save_as_io_error_aborts (s : TabState) (close : Bool) (o : CloseOracle)
    (s' : TabState) (hs : save_as_model s close o = some s') (hn : o.saName ≠ "")
    (herr : (∃ e, o.saRead = .error e) ∨ (o.saWriteErr = true ∧ ∃ nb, o.saRead = .ok nb)) :
    s'.clients = s.clients ∧ s'.currentIndex = s.currentIndex ∧ s'.files = s.files ∧
      hasReport s'.events = true := by
  unfold save_as_model at hs
  cases hw : widget s s.currentIndex with
  | none => rw [hw] at hs; cases hs
  | some cc =>
    simp only [hw, Option.some_bind] at hs
    rw [if_neg hn] at hs
    rcases herr with ⟨e, he⟩ | ⟨hwr, nb, he⟩
    · simp only [he] at hs
      cases hs
      simp [addEvent, hasReport]
    · simp only [he, hwr, eq_self_iff_true, if_true] at hs
      cases hs
      simp [addEvent, hasReport]

/-- Witness for C8: a read failure with a chosen destination aborts. -/
theorem save_as_io_error_aborts_witness :
    ((save_as_model oneCreateState false
          ⟨.ok ⟨[], none⟩, false, "/d/x.ipynb", .error "io", false, none⟩).getD
        initState).clients = oneCreateState.clients ∧
    ((save_as_model oneCreateState false
          ⟨.ok ⟨[], none⟩, false, "/d/x.ipynb", .error "io", false, none⟩).getD
        initState).currentIndex = oneCreateState.currentIndex ∧
    ((save_as_model oneCreateState false
          ⟨.ok ⟨[], none⟩, false, "/d/x.ipynb", .error "io", false, none⟩).getD
        initState).files = oneCreateState.files ∧
    hasReport ((save_as_model oneCreateState false
          ⟨.ok ⟨[], none⟩, false, "/d/x.ipynb", .error "io", false, none⟩).getD
        initState).events = true :=
  save_as_io_error_aborts oneCreateState false
    ⟨.ok ⟨[], none⟩, false, "/d/x.ipynb", .error "io", false, none⟩
    ((save_as_model oneCreateState false
        ⟨.ok ⟨[], none⟩, false, "/d/x.ipynb", .error "io", false, none⟩).getD initState)
    rfl (by decide) (.inl ⟨"io", rfl⟩)

/-! ## Claim C3 (two sequential creations from the empty widget) -/

/-- The state after two `create_new_client()` calls with no filename and
successful server starts, from the empty widget. -/
def twoCreates (si1 si2 : ServerInfo) : TabState :=
  (create_new_client (create_new_client initState none (some si1)).1 none (some si2)).1

/-- Counterexample to claim C3 as stated: after two successful untitled
creations from the empty widget the tab collection does not have exactly
two entries — the welcome tab created by the first call is still there. -/
theorem two_creates_counterexample :
    run initState [Op.createNew (some si0), Op.createNew (some si0)] =
      some (twoCreates si0 si0) ∧
    (twoCreates si0 si0).clients.length ≠ 2 :=
  ⟨rfl, by decide⟩

/-- Claim C3 as amended: two sequential `create_new_client()` calls with no
filename and successful server starts, from the empty widget, write the
files `untitled0.ipynb` and `untitled1.ipynb` and leave three tabs: the
welcome tab (created by the first call because the collection was empty)
followed by the two real clients in creation order, with the last tab (the
second real client) selected. -/
theorem two_creates_amended (si1 si2 : ServerInfo) :
    run initState [Op.createNew (some si1), Op.createNew (some si2)] =
      some (twoCreates si1 si2) ∧
    (twoCreates si1 si2).clients.map (fun c => c.filename) =
      [WELCOME, NOTEBOOK_TMPDIR ++ "/untitled0.ipynb",
        NOTEBOOK_TMPDIR ++ "/untitled1.ipynb"] ∧
    (twoCreates si1 si2).currentIndex = 2 ∧
    fsLookup (twoCreates si1 si2).files (NOTEBOOK_TMPDIR ++ "/untitled0.ipynb") =
      some ⟨[], some defaultKernelspec⟩ ∧
    fsLookup (twoCreates si1 si2).files (NOTEBOOK_TMPDIR ++ "/untitled1.ipynb") =
      some ⟨[], some defaultKernelspec⟩ :=
  ⟨rfl, rfl, rfl, rfl, rfl⟩

/-- Witness for C3 as amended, at a concrete server info. -/
theorem two_creates_amended_witness :
    (twoCreates si0 si0).clients.map (fun c => c.filename) =
      [WELCOME, NOTEBOOK_TMPDIR ++ "/untitled0.ipynb",
        NOTEBOOK_TMPDIR ++ "/untitled1.ipynb"] ∧
    (twoCreates si0 si0).currentIndex = 2 :=
  ⟨(two_creates_amended si0 si0).2.1, (two_creates_amended si0 si0).2.2.1⟩

/-! ## Claim C1 (welcome tab vs. real clients) -/

theorem mcwc_ne_nil (s : TabState) : (maybe_create_welcome_client s).1.clients ≠ [] := by
  rw [maybe_create_welcome_client]
  split
  · simp [add_tab]
  · next h =>
    intro hc
    exact h (by rw [hc]; rfl)

theorem create_ne_nil (s : TabState) (f : Option String) (r : Option ServerInfo) :
    ((create_new_client s f r).1).clients ≠ [] := by
  cases r with
  | none =>
    simp only [create_new_client]
    exact mcwc_ne_nil _
  | some si =>
    simp only [create_new_client]
    split <;> split <;> simp [add_tab]

theorem close_rest_ne_nil (s : TabState) (c : Client) (s' : TabState)
    (h : close_rest s c = some s') : s'.clients ≠ [] := by
  simp only [close_rest, Option.map_eq_some'] at h
  obtain ⟨i, _, h⟩ := h
  rw [← h]
  exact mcwc_ne_nil _

theorem close_client_pres_ne (s : TabState) (t : CloseTarget) (save : Bool) (o : CloseOracle)
    (s' : TabState) (hne : s.clients ≠ []) (h : close_client s t save o = some s') :
    s'.clients ≠ [] := by
  unfold close_client at h
  rw [if_neg (fun h0 => hne (List.length_eq_zero.mp h0))] at h
  rw [Option.bind_eq_some] at h
  obtain ⟨c, _, h⟩ := h
  simp only [Option.bind_eq_some] at h
  obtain ⟨s1, _, h⟩ := h
  exact close_rest_ne_nil s1 c s' h

theorem stepOp_pres_ne (s : TabState) (op : Op) (s' : TabState) (hne : s.clients ≠ [])
    (h : stepOp s op = some s') : s'.clients ≠ [] := by
  cases op with
  | createNew r =>
    injection h with h
    rw [← h]
    exact create_ne_nil s none r
  | createWith f r =>
    injection h with h
    rw [← h]
    exact create_ne_nil s (some f) r
  | closeTab t save o => exact close_client_pres_ne s t save o s' hne h

theorem stepOp_create_ne (s : TabState) (op : Op) (s' : TabState)
    (hc : isCreate op = true) (h : stepOp s op = some s') : s'.clients ≠ [] := by
  cases op with
  | createNew r =>
    injection h with h
    rw [← h]
    exact create_ne_nil s none r
  | createWith f r =>
    injection h with h
    rw [← h]
    exact create_ne_nil s (some f) r
  | closeTab t save o => cases hc

theorem run_pres_ne (ops : List Op) : ∀ (s s' : TabState), s.clients ≠ [] →
    run s ops = some s' → s'.clients ≠ [] := by
  induction ops with
  | nil =>
    intro s s' h hr
    injection hr with hr
    rw [← hr]
    exact h
  | cons op rest ih =>
    intro s s' h hr
    simp only [run, Option.bind_eq_some] at hr
    obtain ⟨s1, hstep, hr⟩ := hr
    exact ih s1 s' (stepOp_pres_ne s op s1 h hstep) hr

theorem run_create_ne (ops : List Op) : ∀ (s s' : TabState), containsCreate ops = true →
    run s ops = some s' → s'.clients ≠ [] := by
  induction ops with
  | nil =>
    intro s s' hc
    cases hc
  | cons op rest ih =>
    intro s s' hc hr
    simp only [run, Option.bind_eq_some] at hr
    obtain ⟨s1, hstep, hr⟩ := hr
    by_cases hop : isCreate op = true
    · exact run_pres_ne rest s1 s' (stepOp_create_ne s op s1 hop hstep) hr
    · have hc2 : isCreate op = true ∨ containsCreate rest = true := by
        simpa [containsCreate, List.any_cons] using hc
      exact ih s1 s' (hc2.resolve_left hop) hr

/-- Counterexample to claim C1 as stated: one successful untitled creation
from the empty widget leaves a welcome tab together with one real client,
so the welcome tab exists although the real-client collection is not
empty. -/
theorem welcome_iff_counterexample :
    run initState [Op.createNew (some si0)] = some oneCreateState ∧
    ¬ (1 ≤ welcomeCount oneCreateState ↔ realCount oneCreateState = 0) :=
  ⟨rfl, by decide⟩

/-- Claim C1 as amended: after any sequence of `create_new_client` and
`close_client` calls from the empty widget containing at least one create
(close calls on the empty widget are no-ops), if the collection holds no
real client then a welcome tab exists.  The converse direction of the
original claim fails, see the counterexample: a successful creation on the
empty widget keeps the welcome tab next to the new real client. -/
theorem welcome_ensured_after_create (ops : List Op) (s' : TabState)
    (hc : containsCreate ops = true) (hr : run initState ops = some s')
    (hreal : realCount s' = 0) : 1 ≤ welcomeCount s' := by
  have hne := run_create_ne ops initState s' hc hr
  obtain ⟨c, cs, hcl⟩ : ∃ c cs, s'.clients = c :: cs := by
    cases h : s'.clients with
    | nil => exact absurd h hne
    | cons a l => exact ⟨a, l, rfl⟩
  have hcw : c.filename = WELCOME := by
    by_contra hcw
    have hmem : c ∈ s'.clients.filter (fun x => x.filename ≠ WELCOME) := by
      rw [List.mem_filter]
      exact ⟨by rw [hcl]; exact List.mem_cons_self c cs, by simpa using hcw⟩
    have : s'.clients.filter (fun x => x.filename ≠ WELCOME) = [] :=
      List.length_eq_zero.mp hreal
    rw [this] at hmem
    cases hmem
  have hmem : c ∈ s'.clients.filter (fun x => x.filename = WELCOME) := by
    rw [List.mem_filter]
    exact ⟨by rw [hcl]; exact List.mem_cons_self c cs, by simp [hcw]⟩
  simpa [welcomeCount] using List.length_pos_of_mem hmem

/-- Witness for C1 as amended: after one failed creation from the empty
widget there are no real clients and the welcome tab exists. -/
theorem welcome_ensured_after_create_witness : 1 ≤ welcomeCount stateW :=
  welcome_ensured_after_create [Op.createNew none] stateW (by decide) rfl (by decide)

/-! ## Claim C4 (register: relative path and file URL) -/

theorem str_ne_empty_iff (s : String) : s ≠ "" ↔ s.data ≠ [] := by
  obtain ⟨d⟩ := s
  constructor
  · intro h hc
    exact h (by rw [show d = [] from hc])
  · intro h hc
    exact h (congrArg String.data hc)

theorem str_ext {a b : String} (h : a.data = b.data) : a = b := by
  obtain ⟨d⟩ := a
  obtain ⟨e⟩ := b
  simp only at h
  rw [h]

theorem str_mk_data (s : String) : String.mk s.data = s := by
  obtain ⟨d⟩ := s
  rfl

theorem splitSeg_sep_cons (l : List Char) : splitSeg ('/' :: l) = [] :: splitSeg l := by
  rw [splitSeg, if_pos rfl]

theorem splitSeg_no_sep : ∀ (l : List Char), '/' ∉ l → splitSeg l = [l]
  | [], _ => rfl
  | c :: cs, h => by
    have hc : ¬ c = '/' := fun e => h (by rw [← e]; exact List.mem_cons_self c cs)
    rw [splitSeg, if_neg hc,
      splitSeg_no_sep cs (fun m => h (List.mem_cons_of_mem c m))]

theorem splitSeg_append_sep : ∀ (a b : List Char), '/' ∉ a →
    splitSeg (a ++ '/' :: b) = a :: splitSeg b
  | [], b, _ => splitSeg_sep_cons b
  | c :: cs, b, h => by
    have hc : ¬ c = '/' := fun e => h (by rw [← e]; exact List.mem_cons_self c cs)
    rw [List.cons_append, splitSeg, if_neg hc,
      splitSeg_append_sep cs b (fun m => h (List.mem_cons_of_mem c m))]

theorem splitSeg_joinSegs : ∀ (segs : List (List Char)), segs ≠ [] →
    (∀ s ∈ segs, '/' ∉ s) → splitSeg (joinSegs segs) = segs
  | [], h, _ => absurd rfl h
  | [x], _, hs => by
    rw [joinSegs, splitSeg_no_sep x (hs x (List.mem_cons_self x []))]
  | x :: y :: t, _, hs => by
    rw [show joinSegs (x :: y :: t) = x ++ '/' :: joinSegs (y :: t) from rfl,
      splitSeg_append_sep x _ (hs x (List.mem_cons_self x _)),
      splitSeg_joinSegs (y :: t) (by simp) (fun s m => hs s (List.mem_cons_of_mem x m))]

theorem pySplit_abs (segs : List String) (hne : segs ≠ [])
    (hs : ∀ x ∈ segs, x ≠ "" ∧ '/' ∉ x.data) :
    (pySplitSlash ("/" ++ joinSlash segs)).filter (fun x => x ≠ "") = segs := by
  have hdata : ("/" ++ joinSlash segs).data = '/' :: joinSegs (segs.map String.data) := by
    rw [String.data_append]
    rfl
  rw [pySplitSlash, hdata, splitSeg_sep_cons,
    splitSeg_joinSegs (segs.map String.data)
      (fun h => hne (List.map_eq_nil_iff.mp h))
      (by
        intro s m
        obtain ⟨x, hx, he⟩ := List.mem_map.mp m
        rw [← he]
        exact (hs x hx).2)]
  rw [List.map_cons, List.map_map]
  have hmm : ∀ (l : List String), l.map (String.mk ∘ String.data) = l := by
    intro l
    induction l with
    | nil => rfl
    | cons a t ih =>
      rw [List.map_cons, ih, show (String.mk ∘ String.data) a = a from str_mk_data a]
  have hdrop : ("" :: segs).filter (fun x => x ≠ "") = segs.filter (fun x => x ≠ "") := by
    simp
  rw [hmm, show String.mk [] = "" from rfl, hdrop,
    List.filter_eq_self.mpr (fun a ha => by simp [(hs a ha).1])]

theorem commonPrefixLen_append : ∀ (D X : List String), commonPrefixLen D (D ++ X) = D.length
  | [], _ => rfl
  | d :: ds, X => by
    rw [List.cons_append, commonPrefixLen, if_pos rfl, commonPrefixLen_append ds X]
    exact (List.length_cons d ds).symm

theorem joinSlash_pair (a b : String) : joinSlash [a, b] = a ++ "/" ++ b := by
  apply str_ext
  simp [joinSlash, joinSegs, String.data_append]

theorem relpath_abs (D : List String) (sub nb : String)
    (hD : ∀ d ∈ D, d ≠ "" ∧ '/' ∉ d.data)
    (hsub : sub ≠ "" ∧ '/' ∉ sub.data) (hnb : nb ≠ "" ∧ '/' ∉ nb.data) :
    relpath ("/" ++ joinSlash (D ++ [sub, nb])) ("/" ++ joinSlash D) = sub ++ "/" ++ nb := by
  have hpath : (pySplitSlash ("/" ++ joinSlash (D ++ [sub, nb]))).filter (fun x => x ≠ "") =
      D ++ [sub, nb] := by
    apply pySplit_abs _ (by simp)
    intro x hx
    rcases List.mem_append.mp hx with h | h
    · exact hD x h
    · have h2 : x = sub ∨ x = nb := by simpa using h
      rcases h2 with rfl | rfl
      · exact hsub
      · exact hnb
  have hstart : (pySplitSlash ("/" ++ joinSlash D)).filter (fun x => x ≠ "") = D := by
    cases D with
    | nil => decide
    | cons d ds => exact pySplit_abs _ (by simp) hD
  simp only [relpath]
  rw [hpath, hstart, commonPrefixLen_append D [sub, nb], Nat.sub_self, List.replicate_zero,
    List.nil_append, List.drop_left]
  rw [if_neg (by simp)]
  exact joinSlash_pair sub nb

theorem flatMap_quoteChar_safe : ∀ (l : List Char), (∀ c ∈ l, isSafeChar c = true) →
    l.flatMap quoteChar = l
  | [], _ => rfl
  | c :: cs, h => by
    rw [List.flatMap_cons, quoteChar, if_pos (h c (List.mem_cons_self c cs)),
      flatMap_quoteChar_safe cs (fun x m => h x (List.mem_cons_of_mem c m))]
    rfl

theorem url_escape_safe (sub nb : String)
    (hsub2 : ∀ c ∈ sub.data, isSafeChar c = true ∧ c ≠ '/')
    (hnb2 : ∀ c ∈ nb.data, isSafeChar c = true ∧ c ≠ '/') :
    url_escape (sub ++ "/" ++ nb) = sub ++ "/" ++ nb := by
  apply str_ext
  have hd : (sub ++ "/" ++ nb).data = sub.data ++ '/' :: nb.data := by
    rw [String.data_append, String.data_append]
    simp
  rw [show (url_escape (sub ++ "/" ++ nb)).data =
      joinSegs ((splitSeg (sub ++ "/" ++ nb).data).map (fun part => part.flatMap quoteChar))
      from rfl]
  rw [hd, splitSeg_append_sep _ _ (fun m => (hsub2 '/' m).2 rfl),
    splitSeg_no_sep _ (fun m => (hnb2 '/' m).2 rfl), List.map_cons, List.map_cons,
    List.map_nil, flatMap_quoteChar_safe sub.data (fun c m => (hsub2 c m).1),
    flatMap_quoteChar_safe nb.data (fun c m => (hnb2 c m).1)]
  rfl

theorem dropWhile_eq_self_of_head (p : Char → Bool) :
    ∀ (l : List Char), (∀ x, l.head? = some x → p x = false) → l.dropWhile p = l
  | [], _ => rfl
  | c :: cs, h => by
    rw [List.dropWhile_cons, h c rfl]
    simp

theorem stripChar_eq_self (ch : Char) (l : List Char)
    (hh : ∀ x, l.head? = some x → x ≠ ch) (hl : ∀ x, l.getLast? = some x → x ≠ ch) :
    stripChar ch l = l := by
  rw [stripChar, dropWhile_eq_self_of_head _ l (fun x hx => by simp [hh x hx]),
    dropWhile_eq_self_of_head _ l.reverse (fun x hx => by
      rw [List.head?_reverse] at hx
      simp [hl x hx]),
    List.reverse_reverse]

theorem stripSlashes_fix (s : String) (hh : ∀ x, s.data.head? = some x → x ≠ '/')
    (hl : ∀ x, s.data.getLast? = some x → x ≠ '/') : stripSlashes s = s := by
  apply str_ext
  rw [show (stripSlashes s).data = stripChar '/' s.data from rfl,
    stripChar_eq_self '/' s.data hh hl]

theorem stripChar_length_le (ch : Char) (l : List Char) :
    (stripChar ch l).length ≤ (l.dropWhile (fun x => x = ch)).length := by
  rw [stripChar, List.length_reverse]
  calc ((l.dropWhile (fun x => x = ch)).reverse.dropWhile (fun x => x = ch)).length
      ≤ (l.dropWhile (fun x => x = ch)).reverse.length :=
        List.Sublist.length_le (List.dropWhile_sublist _)
    _ = (l.dropWhile (fun x => x = ch)).length := List.length_reverse _

theorem stripChar_head_ne (ch : Char) (l : List Char) (h : stripChar ch l = l)
    (x : Char) (hx : l.head? = some x) : x ≠ ch := by
  intro he
  cases l with
  | nil => cases hx
  | cons c rest =>
    have hc : c = ch := by
      injection hx with hx2
      rw [hx2, he]
    have h1 := stripChar_length_le ch (c :: rest)
    rw [h, List.dropWhile_cons, hc] at h1
    simp only [decide_eq_true_eq, eq_self_iff_true, if_true, List.length_cons] at h1
    have h2 : ((rest.dropWhile (fun x => x = ch))).length ≤ rest.length :=
      List.Sublist.length_le (List.dropWhile_sublist _)
    omega

theorem isPrefixOf_slash_false (l : List Char) (hne : l ≠ [])
    (hh : ∀ x, l.head? = some x → x ≠ '/') : ['/'].isPrefixOf l = false := by
  cases l with
  | nil => exact absurd rfl hne
  | cons c rest =>
    have hc : c ≠ '/' := hh c rfl
    simp [List.isPrefixOf, Ne.symm hc]

theorem url_path_join_three (U p : String)
    (hU1 : U ≠ "") (hU2 : stripSlashes U = U)
    (hp1 : p ≠ "") (hph : ∀ x, p.data.head? = some x → x ≠ '/')
    (hpl : ∀ x, p.data.getLast? = some x → x ≠ '/') :
    url_path_join [U, "notebook", p] = U ++ "/notebook/" ++ p := by
  have hUd : U.data ≠ [] := (str_ne_empty_iff U).mp hU1
  have hUh : ∀ x, U.data.head? = some x → x ≠ '/' :=
    fun x hx => stripChar_head_ne '/' U.data (congrArg String.data hU2) x hx
  have hinit : pyStartsWith U "/" = false := isPrefixOf_slash_false U.data hUd hUh
  have hpd : p.data ≠ [] := (str_ne_empty_iff p).mp hp1
  have hfinal : pyEndsWith p "/" = false := by
    apply isPrefixOf_slash_false
    · intro hr
      exact hpd (List.reverse_eq_nil_iff.mp hr)
    · intro x hx
      rw [List.head?_reverse] at hx
      exact hpl x hx
  have hstripN : stripSlashes "notebook" = "notebook" := rfl
  have hstripP : stripSlashes p = p := stripSlashes_fix p hph hpl
  have hfil : [U, "notebook", p].filter (fun s => s ≠ "") = [U, "notebook", p] := by
    apply List.filter_eq_self.mpr
    intro a ha
    have ha2 : a = U ∨ a = "notebook" ∨ a = p := by simpa using ha
    rcases ha2 with rfl | rfl | rfl
    · simp [hU1]
    · decide
    · simp [hp1]
  simp only [url_path_join]
  rw [show List.headD [U, "notebook", p] "" = U from rfl,
    show List.getLastD [U, "notebook", p] "" = p from rfl, hinit, hfinal,
    List.map_cons, List.map_cons, List.map_cons, List.map_nil, hU2, hstripN, hstripP, hfil]
  simp only [Bool.false_eq_true, if_false]
  obtain ⟨u, ur, hu⟩ : ∃ u ur, U.data = u :: ur := by
    cases hUdd : U.data with
    | nil => exact absurd hUdd hUd
    | cons a t => exact ⟨a, t, rfl⟩
  have hune : u ≠ '/' := hUh u (by rw [hu]; rfl)
  have hne2 : (⟨joinSegs (List.map String.data [U, "notebook", p])⟩ : String) ≠ "//" := by
    intro he
    have hdd2 : U.data ++ '/' :: ("notebook".data ++ '/' :: p.data) = ['/', '/'] :=
      congrArg String.data he
    rw [hu, List.cons_append] at hdd2
    injection hdd2 with h1 _
    exact hune h1
  rw [if_neg hne2]
  apply str_ext
  show U.data ++ '/' :: ("notebook".data ++ '/' :: p.data) = (U ++ "/notebook/" ++ p).data
  rw [String.data_append, String.data_append, List.append_assoc]
  rfl

/-- Claim C4: for every client whose filename is `D/sub/nb` (an absolute
path below the notebook directory `D` of the server, where the two
remaining segments are nonempty and consist of URL-safe characters, and
the server URL is nonempty without surrounding slashes), `register` with
server info `url = U`, `token = T`, `notebook_dir = D` sets the relative
path of the client to `sub/nb` and its file URL to
`U/notebook/sub/nb?token=T`. -/
theorem register_relative_path_and_url (D : List String) (sub nb U T : String) (c0 : Client)
    (hD : ∀ d ∈ D, d ≠ "" ∧ '/' ∉ d.data)
    (hsub1 : sub ≠ "") (hsub2 : ∀ c ∈ sub.data, isSafeChar c = true ∧ c ≠ '/')
    (hnb1 : nb ≠ "") (hnb2 : ∀ c ∈ nb.data, isSafeChar c = true ∧ c ≠ '/')
    (hU1 : U ≠ "") (hU2 : stripSlashes U = U)
    (hfile : c0.filename = "/" ++ joinSlash (D ++ [sub, nb])) :
    (register c0 ⟨U, T, "/" ++ joinSlash D⟩).path = some (sub ++ "/" ++ nb) ∧
    (register c0 ⟨U, T, "/" ++ joinSlash D⟩).file_url =
      some (U ++ "/notebook/" ++ sub ++ "/" ++ nb ++ "?token=" ++ T) := by
  have hrel : relpath c0.filename ("/" ++ joinSlash D) = sub ++ "/" ++ nb := by
    rw [hfile]
    exact relpath_abs D sub nb hD ⟨hsub1, fun m => (hsub2 '/' m).2 rfl⟩
      ⟨hnb1, fun m => (hnb2 '/' m).2 rfl⟩
  have hpdata : (sub ++ "/" ++ nb).data = sub.data ++ '/' :: nb.data := by
    rw [String.data_append, String.data_append]
    simp
  have hp1 : sub ++ "/" ++ nb ≠ "" := by
    rw [str_ne_empty_iff, hpdata]
    intro hc
    rcases List.append_eq_nil.mp hc with ⟨-, h2⟩
    cases h2
  have hph : ∀ x, (sub ++ "/" ++ nb).data.head? = some x → x ≠ '/' := by
    intro x hx
    rw [hpdata] at hx
    obtain ⟨s0, sr, hsd⟩ : ∃ s0 sr, sub.data = s0 :: sr := by
      cases hsd : sub.data with
      | nil => exact absurd hsd ((str_ne_empty_iff sub).mp hsub1)
      | cons a t => exact ⟨a, t, rfl⟩
    rw [hsd, List.cons_append] at hx
    injection hx with hx2
    rw [← hx2]
    exact (hsub2 s0 (by rw [hsd]; exact List.mem_cons_self s0 sr)).2
  have hpl : ∀ x, (sub ++ "/" ++ nb).data.getLast? = some x → x ≠ '/' := by
    intro x hx
    have hnbd : nb.data ≠ [] := (str_ne_empty_iff nb).mp hnb1
    rw [hpdata, List.getLast?_append_of_ne_nil _ (by simp [hnbd]),
      show ('/' :: nb.data) = ['/'] ++ nb.data from rfl,
      List.getLast?_append_of_ne_nil _ hnbd] at hx
    have hx2 : x ∈ nb.data.getLast? := by rw [hx]; rfl
    obtain ⟨hne3, he3⟩ := List.mem_getLast?_eq_getLast hx2
    exact (hnb2 x (by rw [he3]; exact List.getLast_mem hne3)).2
  have hesc : url_escape (sub ++ "/" ++ nb) = sub ++ "/" ++ nb :=
    url_escape_safe sub nb hsub2 hnb2
  have hjoin : url_path_join [U, "notebook", sub ++ "/" ++ nb] =
      U ++ "/notebook/" ++ (sub ++ "/" ++ nb) :=
    url_path_join_three U (sub ++ "/" ++ nb) hU1 hU2 hp1 hph hpl
  constructor
  · simp only [register]
    rw [hrel]
  · simp only [register, add_token]
    rw [hrel, hesc, hjoin]
    apply congrArg some
    apply str_ext
    simp [String.data_append, List.append_assoc]

/-- Witness for C4 at a concrete client and server info. -/
theorem register_relative_path_and_url_witness :
    (register (newClient 0 "/home/user/sub/nb.ipynb")
        ⟨"http://localhost:8888", "tok", "/" ++ joinSlash ["home", "user"]⟩).path =
      some ("sub" ++ "/" ++ "nb.ipynb") ∧
    (register (newClient 0 "/home/user/sub/nb.ipynb")
        ⟨"http://localhost:8888", "tok", "/" ++ joinSlash ["home", "user"]⟩).file_url =
      some ("http://localhost:8888" ++ "/notebook/" ++ "sub" ++ "/" ++ "nb.ipynb" ++
        "?token=" ++ "tok") :=
  register_relative_path_and_url ["home", "user"] "sub" "nb.ipynb"
    "http://localhost:8888" "tok" (newClient 0 "/home/user/sub/nb.ipynb")
    (by decide) (by decide) (by decide) (by decide) (by decide) (by decide) (by decide)
    (by decide)

end SpyderNB
